import Mathlib

/-!
Shallow embedding of the conversation-workflow orchestrator of the
mental-care chat API (FastAPI + LangGraph agent).

Sources embedded:
  * `app/agent/agent_core.py` — the agent nodes `classify_intent`,
    `search_website_info`, `book_appointment`, `respond`, the booking
    algorithm `book_appointment_algo`, and the conditional edges
    registered in `get_agent_app`;
  * `app/app.py` — the per-message input handling of the websocket
    endpoint;
  * `app/services/doctor_service.py` — `DoctorService.book_appointment`,
    the calendar/persistence booking saga with its compensation step.

External capabilities (the LLM calls, the RAG search, the Google Calendar
client and Firestore) are passed in as function parameters returning
`Except`/`Option` values, mirroring the spec's opaque-capability view.
-/

namespace MentalCare

/-- Python truthiness restricted to `str | None` values: `None` and the
empty string are falsy, every other string is truthy.  This is the test
`if not state.get("user_Fname")` etc. performs in `agent_core.py`. -/
def truthy : Option String → Bool
  | none => false
  | some s => !s.isEmpty

/-! ## `book_appointment_algo` (agent_core.py lines 71-98) -/

/-- The f-string `f"{month}/{day}/{year}"` of `book_appointment_algo`. -/
def dateStr (month day year : Nat) : String :=
  toString month ++ "/" ++ toString day ++ "/" ++ toString year

/-- The message of the `UnboundLocalError` that the trailing f-string of
`book_appointment_algo` raises when none of the three date branches has
assigned `month`/`day`; the `except` clause stores the exception itself
in `status`. -/
def unbound_local_error : String :=
  "UnboundLocalError: local variable month referenced before assignment"

/-- Embedding of `book_appointment_algo` (agent_core.py lines 71-98).
`rand a b` stands for `random.randint(a, b)`; `day`/`month`/`year` are the
components of `datetime.datetime.now()`.  The returned pair is
`(status, appointment_date)` where `status` is `Sum.inl true` for the
Python `True` and `Sum.inr e` for a caught exception object `e`.
The three `if`/`elif` branches are translated verbatim; when all three
guards are false, `month` and `day` are unbound in Python, so formatting
the date raises, the `except Exception` branch assigns the exception to
`status`, and `appointment_date` stays `None`. -/
def book_appointment_algo (rand : Nat → Nat → Nat) (day month year : Nat) :
    (Bool ⊕ String) × Option String :=
  if day < 28 ∧ month < 12 then
    (Sum.inl true, some (dateStr (rand month 12) (rand day 28) year))
  else if 28 ≤ day ∧ month < 12 then
    (Sum.inl true, some (dateStr (rand (month + 1) 12) (rand 1 28) year))
  else if day < 28 ∧ month = 12 then
    (Sum.inl true, some (dateStr (rand 1 12) (rand day 28) (year + 1)))
  else
    (Sum.inr unbound_local_error, none)

/-! ## Classification and routing (agent_core.py lines 138-171, 385-394) -/

/-- The `RequestClassification` TypedDict.  `intent` and `urgency` are kept
as raw strings: the structured-output capability may hand back values
outside the declared `Literal` sets, and the node's behaviour on such
malformed shapes is exactly what the error-handling claims are about. -/
structure RequestClassification where
  intent : String
  urgency : String
  summary_request : String
deriving DecidableEq

/-- The `if`/`elif` chain of `classify_intent` (agent_core.py lines
159-166) that assigns the local variable `goto`.  `none` models the case
where no branch fires, leaving `goto` unbound so that the subsequent
`Command(..., goto=goto)` raises `UnboundLocalError`. -/
def classify_intent_goto (c : RequestClassification) : Option String :=
  if c.intent = ("urgent_help" : String) ∨ c.urgency = ("critical" : String) then
    some ("respond")
  else if c.intent = ("inquiry" : String) then some ("search_website_info")
  else if c.intent = ("booking" : String) then some ("book_appointment")
  else if c.intent = ("conversational" : String) then some ("respond")
  else none

/-- Embedding of the `classify_intent` node (agent_core.py lines 138-171).
The parameter is the outcome of the `Classify` capability call
(`structured_llm.ainvoke`): `Except.error e` is a raised exception, which
propagates out of the node.  On a successful call the node computes `goto`
and returns `Command(update={"classification": c}, goto=goto)`, embedded as
the pair `(c, goto)`; if the `if`/`elif` chain assigned nothing, evaluating
`goto` raises and the node returns no `Command`, so no state is written and
`classification` stays absent. -/
def classify_intent (result : Except String RequestClassification) :
    Except String (RequestClassification × String) :=
  match result with
  | Except.error e => Except.error e
  | Except.ok c =>
    match classify_intent_goto c with
    | some g => Except.ok (c, g)
    | none => Except.error unbound_local_error

/-- The `path_map` dictionary of `workflow.add_conditional_edges`
(agent_core.py lines 385-394), keyed on `classification["intent"]` alone.
These conditional edges are registered on the compiled graph in addition
to the `Command(goto=...)` returned by `classify_intent`, so after
`classify_intent` runs, the graph also schedules the node this mapping
selects for the stored intent. -/
def classify_conditional_edges (intent : String) : Option String :=
  if intent = ("urgent_help" : String) then some ("respond")
  else if intent = ("inquiry" : String) then some ("search_website_info")
  else if intent = ("booking" : String) then some ("book_appointment")
  else if intent = ("conversational" : String) then some ("respond")
  else none

/-! ## `search_website_info` (agent_core.py lines 173-192) -/

/-- The diagnostic placeholder `f"RAG search failed: {e}"`. -/
def rag_failure_msg (e : String) : String := "RAG search failed: " ++ e

/-- Embedding of the `search_website_info` node (agent_core.py lines
173-192).  `reformulate` is the structured `ainvoke` call producing
`new_query` — it sits OUTSIDE the `try` block, so its exception propagates
and fails the node.  `rag_tool` is the FAISS similarity search — it is the
only call inside the `try`, and its exception is converted into the
single-element placeholder list.  The returned pair is
`(search_results, goto)`. -/
def search_website_info
    (reformulate : String → Except String String)
    (rag_tool : String → Except String (List String))
    (user_message : String) : Except String (List String × String) :=
  match reformulate user_message with
  | Except.error e => Except.error e
  | Except.ok new_query =>
    match rag_tool new_query with
    | Except.ok search_results => Except.ok (search_results, "respond")
    | Except.error e => Except.ok ([rag_failure_msg e], "respond")

/-! ## `book_appointment` node (agent_core.py lines 194-260) -/

/-- The four fields the slot-collection node gathers, in the order the
source checks them. -/
inductive BookField
  | firstName
  | lastName
  | phone
  | email
deriving DecidableEq

/-- The slot-collection slice of `MentalHealthAgentState`: the four
optional user fields the `book_appointment` node reads and writes. -/
structure BookState where
  user_Fname : Option String
  user_Lname : Option String
  user_phonenumber : Option String
  user_email : Option String
deriving DecidableEq

/-- Result of one invocation of the `book_appointment` node:
`suspend f g` models `interrupt({...})` for field `f` followed (once the
resume value arrives) by `Command(update={f: value}, goto=g)`;
`finalize g` models the final branch that calls `book_appointment_algo`
and returns `Command(update={booked, appointment_date}, goto=g)`. -/
inductive BookNodeResult
  | suspend (field : BookField) (goto : String)
  | finalize (goto : String)
deriving DecidableEq

/-- The self-loop target of every interrupt branch. -/
def book_appointment_loop : String := "book_appointment"

/-- The `goto` of the finalize branch. -/
def respond_node_name : String := "respond"

/-- Embedding of the `book_appointment` node's control flow (agent_core.py
lines 194-260): four sequential `if not state.get(...)` checks, each
raising one `interrupt` and self-looping, then the finalize branch. -/
def book_appointment (st : BookState) : BookNodeResult :=
  if truthy st.user_Fname = false then
    BookNodeResult.suspend BookField.firstName book_appointment_loop
  else if truthy st.user_Lname = false then
    BookNodeResult.suspend BookField.lastName book_appointment_loop
  else if truthy st.user_phonenumber = false then
    BookNodeResult.suspend BookField.phone book_appointment_loop
  else if truthy st.user_email = false then
    BookNodeResult.suspend BookField.email book_appointment_loop
  else
    BookNodeResult.finalize respond_node_name

/-- Field projection of the collection state. -/
def BookState.get (st : BookState) : BookField → Option String
  | BookField.firstName => st.user_Fname
  | BookField.lastName => st.user_Lname
  | BookField.phone => st.user_phonenumber
  | BookField.email => st.user_email

/-- Field update of the collection state, as performed by the
`Command(update={...: user_input})` following each interrupt. -/
def BookState.set (st : BookState) : BookField → String → BookState
  | BookField.firstName, v => { st with user_Fname := some v }
  | BookField.lastName, v => { st with user_Lname := some v }
  | BookField.phone, v => { st with user_phonenumber := some v }
  | BookField.email, v => { st with user_email := some v }

/-- One suspended-then-resumed invocation of the collection node: the node
suspends on some field and the external resume value `r` becomes that
field's value (the `update` of the `Command` returned after `interrupt`
yields `r`).  If the node does not suspend, no resume is consumed and the
state is unchanged. -/
def collect_step (st : BookState) (r : String) : BookState :=
  match book_appointment st with
  | BookNodeResult.suspend f _ => st.set f r
  | BookNodeResult.finalize _ => st

/-- The ordered scan the spec describes: the fields still absent, in the
fixed priority order `firstName, lastName, phone, email`.  (Spec-side
definition, used to compare the node's suspension choice against the
claimed priority order.) -/
def missingFields (st : BookState) : List BookField :=
  [BookField.firstName, BookField.lastName, BookField.phone,
    BookField.email].filter (fun f => !truthy (st.get f))

/-- `bookingReady` in the spec's vocabulary: all four fields present. -/
def bookingReady (st : BookState) : Bool :=
  truthy st.user_Fname && truthy st.user_Lname &&
    truthy st.user_phonenumber && truthy st.user_email

/-! ## `respond` node (agent_core.py lines 262-354) -/

/-- One entry of the `messages` history. -/
structure Message where
  role : String
  content : String
deriving DecidableEq

/-- The state update the `respond` node returns. -/
structure RespondUpdate where
  messages : List Message
  response : String
deriving DecidableEq

/-- The crisis support line the prompt instructs the model to include. -/
def crisis_support_line : String := "0800-123-HELP"

/-- Embedding of the `respond` node (agent_core.py lines 262-354).  The
node builds a prompt from the state (classification, search results,
booking details, history) and feeds it to the `Generate` capability;
`generated` is that capability's output (`response_obj["response"]`).
The node then returns
`{"messages": [AIMessage(content=final_text)], "response": final_text}`:
the generated text is forwarded as-is — there is no inspection of
`generated` anywhere between the capability call and the return, for any
classification. -/
def respond (classification : RequestClassification) (generated : String) :
    RespondUpdate :=
  { messages := [{ role := "ai", content := generated }]
    response := generated }

/-- Substring test used to state the crisis-line claims. -/
def strContains (s pat : String) : Bool :=
  decide (List.IsInfix pat.toList s.toList)

/-! ## Websocket input handling (app/app.py lines 87-113) -/

/-- The decoded JSON client message: the three keys the handler reads.
A key absent from the JSON object is `none` (reading it with `[...]`
raises `KeyError`). -/
structure ClientMessage where
  type : Option String
  query : Option String
  resume_value : Option String
deriving DecidableEq

/-- What the handler passes to `agent_instance.astream`:
`turnInput q` is the dict `{"user_message": q}`, `resumeInput v` is
`Command(resume=v)`, and `keyError k` models the `KeyError` raised by
`client_message[k]` when the key is missing (caught by the outer
`except Exception`, which sends an error text and closes the socket). -/
inductive GraphInput
  | turnInput (user_message : String)
  | resumeInput (resume : String)
  | keyError (key : String)
deriving DecidableEq

/-- Embedding of the input-handling branch of `websocket_endpoint`
(app/app.py lines 96-112).  The handler's only per-session flags are
`is_conversation_started` and the message's own `"type"` field; it keeps
no record of whether the graph is suspended on an interrupt. -/
def websocket_endpoint_input (is_conversation_started : Bool)
    (m : ClientMessage) : GraphInput :=
  if is_conversation_started = false then
    match m.query with
    | some q => GraphInput.turnInput q
    | none => GraphInput.keyError "query"
  else if m.type = some ("resume") then
    match m.resume_value with
    | some v => GraphInput.resumeInput v
    | none => GraphInput.keyError "resume_value"
  else
    match m.query with
    | some q => GraphInput.turnInput q
    | none => GraphInput.keyError "query"

/-! ## Booking saga (app/services/doctor_service.py lines 64-126) -/

/-- The three external side-effecting calls of the booking saga, in the
spec's capability vocabulary: `calendar_service.create_appointment`,
`firebase_service.save_appointment`, `calendar_service.cancel_appointment`. -/
inductive SagaCall
  | createCalendarEvent
  | persistAppointment
  | cancelCalendarEvent
deriving DecidableEq

/-- The environment a saga run executes against: whether the doctor lookup
succeeds, whether the doctor's calendar credentials are present, and the
results the two capabilities would return if called (`none` or the empty
string are the falsy failure results the code tests with `if not ...`). -/
structure SagaEnv where
  doctorFound : Bool
  calendarConnected : Bool
  createResult : Option String
  persistResult : Option String

/-- Outcome of a saga run: the external calls issued in order, the
`success` flag of the returned dict, and its `error` field. -/
structure SagaOutcome where
  calls : List SagaCall
  success : Bool
  error : Option String
deriving DecidableEq

/-- Embedding of `DoctorService.book_appointment`
(doctor_service.py lines 64-126): create the calendar event, then persist
the appointment, and on persistence failure compensate by cancelling the
calendar event.  Each guard is the code's falsiness test on the preceding
call's result. -/
def DoctorService.book_appointment (env : SagaEnv) : SagaOutcome :=
  if env.doctorFound = false then
    { calls := [], success := false, error := some ("Doctor not found") }
  else if env.calendarConnected = false then
    { calls := [], success := false,
      error := some ("Doctor calendar not connected") }
  else if truthy env.createResult = false then
    { calls := [SagaCall.createCalendarEvent], success := false,
      error := some ("Failed to create calendar event") }
  else if truthy env.persistResult = false then
    { calls := [SagaCall.createCalendarEvent, SagaCall.persistAppointment,
        SagaCall.cancelCalendarEvent],
      success := false, error := some ("Failed to save appointment") }
  else
    { calls := [SagaCall.createCalendarEvent, SagaCall.persistAppointment],
      success := true, error := none }

/-! ## Theorems -/

/-- Claim C1, counterexample: on the urgent/critical path the `respond`
node emits the generated text unmodified, so a generated reply lacking the
crisis contact string is emitted without it — there is no containment
check and no fallback substitution. -/
theorem respond_urgent_emits_generated_without_crisis_line :
    strContains
      (respond
        { intent := "urgent_help", urgency := "critical", summary_request := "" }
        "I am sorry you are going through this.").response
      crisis_support_line = false := by decide

/-- Claim C1, amended: the `respond` node forwards the `Generate`
capability's output unmodified for every classification — the emitted
reply contains the crisis contact string exactly when the generated text
already does; no verification or fallback substitution is performed. -/
theorem respond_emits_generated_text_unmodified
    (c : RequestClassification) (g : String) :
    (respond c g).response = g ∧
      strContains (respond c g).response crisis_support_line =
        strContains g crisis_support_line :=
  ⟨rfl, rfl⟩

/-- Claim C2: for the classification `{intent: booking, urgency: critical}`,
the `classify_intent` node's own `Command` targets `respond` (urgency
dominates there), but the conditional edges registered on the compiled
graph are keyed on `intent` alone and select `book_appointment` for this
classification, so the slot-collection node is also scheduled after
classification — the claim's "never book_appointment" fails. -/
theorem conditional_edges_route_critical_booking_to_book_appointment :
    classify_intent_goto
        { intent := "booking", urgency := "critical", summary_request := "" } =
        some ("respond") ∧
      classify_conditional_edges
        ({ intent := "booking", urgency := "critical",
           summary_request := "" } : RequestClassification).intent =
        some ("book_appointment") := by decide

/-- Claim C3, counterexample: the `try` block of `search_website_info`
wraps only the `rag_tool` call; a failure of the Reformulate capability
(`structured_llm.ainvoke`) propagates out of the node and fails the turn
instead of being degraded to a placeholder. -/
theorem reformulate_failure_fails_turn :
    search_website_info (fun _ => Except.error ("LLM unavailable"))
      (fun _ => Except.ok []) "what services do you offer" =
      Except.error ("LLM unavailable") := rfl

/-- Claim C3, amended: when the Reformulate call succeeds, a failure of
the Search capability does not fail the turn — `search_results` is set to
the single diagnostic placeholder and the node proceeds to `respond`. -/
theorem search_failure_degrades_to_placeholder
    (reformulate : String → Except String String)
    (rag_tool : String → Except String (List String))
    (msg q e : String)
    (href : reformulate msg = Except.ok q)
    (hrag : rag_tool q = Except.error e) :
    search_website_info reformulate rag_tool msg =
      Except.ok ([rag_failure_msg e], respond_node_name) := by
  simp [search_website_info, href, hrag, respond_node_name]

/-- Witness for the amended claim C3 at a concrete failing Search call. -/
theorem search_failure_degrades_to_placeholder_witness :
    search_website_info (fun _ => Except.ok ("facility services"))
      (fun _ => Except.error ("faiss index down")) "hello" =
      Except.ok ([rag_failure_msg ("faiss index down")], respond_node_name) :=
  search_failure_degrades_to_placeholder _ _ _ ("facility services")
    ("faiss index down") rfl rfl

/-- Claim C4: in every run of the booking saga
(`DoctorService.book_appointment`), `PersistAppointment` is called iff
`CreateCalendarEvent` was called and succeeded in that run, and
`CancelCalendarEvent` is called iff `CreateCalendarEvent` succeeded and
`PersistAppointment` was called and failed. -/
theorem booking_saga_call_discipline (env : SagaEnv) :
    (SagaCall.persistAppointment ∈ (DoctorService.book_appointment env).calls ↔
      SagaCall.createCalendarEvent ∈ (DoctorService.book_appointment env).calls ∧
        truthy env.createResult = true) ∧
    (SagaCall.cancelCalendarEvent ∈ (DoctorService.book_appointment env).calls ↔
      SagaCall.createCalendarEvent ∈ (DoctorService.book_appointment env).calls ∧
        truthy env.createResult = true ∧
        SagaCall.persistAppointment ∈ (DoctorService.book_appointment env).calls ∧
        truthy env.persistResult = false) := by
  obtain ⟨df, cc, cr, pr⟩ := env
  cases df <;> cases cc <;> cases h1 : truthy cr <;> cases h2 : truthy pr <;>
    simp [DoctorService.book_appointment, h1, h2]

/-- Claim C5, counterexample: with the conversation started (hence after
any interrupt as well), an inbound message that is not resume-typed is
forwarded to the graph as a normal turn (`{"user_message": ...}`) — it is
not rejected, and no error event exists on this path. -/
theorem turn_while_suspended_processed_as_turn :
    websocket_endpoint_input true
      { type := none, query := some ("could we do tuesday"),
        resume_value := none } =
      GraphInput.turnInput ("could we do tuesday") := rfl

/-- Claim C5, amended: the websocket handler keeps no suspension flag;
after the first message, every inbound whose `type` is not `"resume"` and
which carries a `query` is passed to the graph as a new turn input,
whether or not an interrupt is pending — never rejected with an error
event. -/
theorem non_resume_message_forwarded_as_turn (m : ClientMessage) (q : String)
    (hty : m.type ≠ some ("resume")) (hq : m.query = some q) :
    websocket_endpoint_input true m = GraphInput.turnInput q := by
  unfold websocket_endpoint_input
  simp [hty, hq]

/-- Witness for the amended claim C5 at a concrete inbound message. -/
theorem non_resume_message_forwarded_as_turn_witness :
    websocket_endpoint_input true
      { type := some ("turn"), query := some ("hello again"),
        resume_value := none } =
      GraphInput.turnInput ("hello again") :=
  non_resume_message_forwarded_as_turn _ _ (by decide) rfl

/-- Claim C6, counterexample: a malformed classification whose intent is
outside the four declared values but whose urgency is `"critical"` does
NOT fail the turn: the urgency disjunct of the first `if` routes it to
`respond` and the malformed classification is written into the state. -/
theorem malformed_intent_critical_urgency_routes_to_respond :
    classify_intent (Except.ok
      { intent := "help_me_now", urgency := "critical",
        summary_request := "" }) =
      Except.ok
        ({ intent := "help_me_now", urgency := "critical",
           summary_request := "" }, "respond") ∧
      ("help_me_now" : String) ∉
        (["inquiry", "booking", "urgent_help", "conversational"] :
          List String) :=
  ⟨rfl, by decide⟩

/-- Claim C6, amended: a failed Classify call propagates its exception
(failing the turn with no state written, so `classification` stays
absent), and a malformed intent fails the turn the same way provided the
accompanying urgency is not `"critical"` — with critical urgency the
malformed result is routed to `respond` instead. -/
theorem classify_failure_or_malformed_stable_fails_turn
    (e : String) (c : RequestClassification)
    (hint : c.intent ∉
      (["inquiry", "booking", "urgent_help", "conversational"] : List String))
    (hurg : c.urgency ≠ ("critical" : String)) :
    classify_intent (Except.error e) = Except.error e ∧
      classify_intent (Except.ok c) = Except.error unbound_local_error := by
  refine ⟨rfl, ?_⟩
  simp only [List.mem_cons, List.mem_singleton, not_or] at hint
  obtain ⟨h1, h2, h3, h4⟩ := hint
  simp [classify_intent, classify_intent_goto, h1, h2, h3, h4, hurg]

/-- Witness for the amended claim C6 at a concrete failure and a concrete
malformed result. -/
theorem classify_failure_or_malformed_stable_fails_turn_witness :
    classify_intent (Except.error ("capability timeout")) =
        Except.error ("capability timeout") ∧
      classify_intent (Except.ok
        { intent := "banana", urgency := "stable", summary_request := "" }) =
        Except.error unbound_local_error :=
  classify_failure_or_malformed_stable_fails_turn _ _ (by decide) (by decide)

/-- Claim C7: each invocation of the `book_appointment` node produces a
single result — either it does not suspend at all (finalize, with no field
missing), or it suspends exactly once, on the head of the priority-ordered
list of missing fields (`firstName, lastName, phone, email`). -/
theorem book_appointment_suspends_on_first_missing_field (st : BookState) :
    (book_appointment st = BookNodeResult.finalize respond_node_name ∧
        missingFields st = []) ∨
      (∃ f, book_appointment st = BookNodeResult.suspend f book_appointment_loop ∧
        (missingFields st).head? = some f) := by
  cases h1 : truthy st.user_Fname <;> cases h2 : truthy st.user_Lname <;>
    cases h3 : truthy st.user_phonenumber <;> cases h4 : truthy st.user_email <;>
    simp [book_appointment, missingFields, BookState.get, h1, h2, h3, h4]

/-- Claim C8, counterexample: an empty-string resume value sets
`user_Fname` to `""`, which the node's falsiness test still treats as
missing, so the next invocation suspends on the same field again and the
next resume value overwrites the previously set one. -/
theorem empty_resume_value_overwritten :
    (collect_step (⟨none, none, none, none⟩ : BookState) "").user_Fname =
        some ("") ∧
      (collect_step (collect_step (⟨none, none, none, none⟩ : BookState) "")
          "Jane").user_Fname =
        some ("Jane") := by decide

/-- Claim C8, amended: once a collected field holds a truthy (non-empty)
value, no later invocation of the collection node overwrites or clears it;
only a field holding the empty string is treated as still missing and may
be overwritten. -/
theorem truthy_field_never_overwritten (st : BookState) (f : BookField)
    (r : String) (h : truthy (st.get f) = true) :
    (collect_step st r).get f = st.get f := by
  unfold collect_step book_appointment
  split_ifs with h1 h2 h3 h4 <;> cases f <;>
    simp_all [BookState.get, BookState.set]

/-- Witness for the amended claim C8 at a concrete state. -/
theorem truthy_field_never_overwritten_witness :
    (collect_step (⟨some ("Jane"), none, none, none⟩ : BookState) "Doe").get
        BookField.firstName =
      ((⟨some ("Jane"), none, none, none⟩ : BookState)).get
        BookField.firstName :=
  truthy_field_never_overwritten _ BookField.firstName _ (by decide)

/-- Claim C9: when all four fields are already present (`bookingReady`),
re-invoking the `book_appointment` node emits no suspension and proceeds
directly to the finalize branch routing to `respond`. -/
theorem book_appointment_replay_no_suspend (st : BookState)
    (h : bookingReady st = true) :
    book_appointment st = BookNodeResult.finalize respond_node_name := by
  unfold bookingReady at h
  simp only [Bool.and_eq_true] at h
  obtain ⟨⟨⟨h1, h2⟩, h3⟩, h4⟩ := h
  simp [book_appointment, h1, h2, h3, h4]

/-- Witness for claim C9 at a fully collected state. -/
theorem book_appointment_replay_no_suspend_witness :
    book_appointment
        (⟨some ("Jane"), some ("Doe"), some ("0123456"),
          some ("jane@doe.example")⟩ : BookState) =
      BookNodeResult.finalize respond_node_name :=
  book_appointment_replay_no_suspend _ (by decide)

/-- Claim C10, counterexample: on a date with day 28 and month 12, none of
the three branches of `book_appointment_algo` executes, the date f-string
raises `UnboundLocalError`, the `except` stores the exception in `status`,
and the function returns the exception with no date — not `(True, None)`
and not a success. -/
theorem algo_december_late_returns_exception :
    book_appointment_algo (fun a _ => a) 28 12 2026 =
      (Sum.inr unbound_local_error, none) := by decide

/-- Claim C10, amended: for a real calendar month (`month ≤ 12`),
`book_appointment_algo` returns status `True` together with a date string
whenever the current date does not fall in December on or after the 28th;
on December 28-31 no branch assigns the date components, and the function
returns the captured `UnboundLocalError` with no appointment date. -/
theorem algo_success_iff_not_late_december (rand : Nat → Nat → Nat)
    (day month year : Nat) (hm : month ≤ 12) :
    (¬(28 ≤ day ∧ month = 12) →
      ∃ d, book_appointment_algo rand day month year = (Sum.inl true, some d)) ∧
      (28 ≤ day ∧ month = 12 →
        book_appointment_algo rand day month year =
          (Sum.inr unbound_local_error, none)) := by
  constructor
  · intro h
    unfold book_appointment_algo
    split_ifs with h1 h2 h3
    · exact ⟨_, rfl⟩
    · exact ⟨_, rfl⟩
    · exact ⟨_, rfl⟩
    · omega
  · intro hlate
    unfold book_appointment_algo
    split_ifs with h1 h2 h3
    · omega
    · omega
    · omega
    · rfl

/-- Witness for the amended claim C10 at a mid-year date and a late
December date. -/
theorem algo_success_iff_not_late_december_witness :
    (∃ d, book_appointment_algo (fun a _ => a) 5 6 2026 =
      (Sum.inl true, some d)) ∧
      book_appointment_algo (fun a _ => a) 30 12 2026 =
        (Sum.inr unbound_local_error, none) :=
  ⟨(algo_success_iff_not_late_december _ 5 6 2026 (by decide)).1 (by decide),
    (algo_success_iff_not_late_december _ 30 12 2026 (by decide)).2 (by decide)⟩

end MentalCare
